import Mathlib

/-!
# Burner Link server — verification of the session lifecycle core

Shallow embedding of `src/server.js`: an in-memory, ephemeral pairwise
messaging relay.  Sessions live in a string-keyed map; each session holds a
rendezvous `code`, an `active` flag, a message list, a participant set and a
`lastSeen` map from device id to the timestamp (ms) of its latest
liveness-bearing action.  Times are wall-clock milliseconds, modelled as `Nat`
and passed explicitly to every operation that reads `Date.now()`.

JavaScript collections are modelled by insertion-ordered association lists:
`Set` as a duplicate-free list (`setAdd`), plain objects used as maps by
`getAssoc`/`setAssoc` (update-in-place keeps the key's original position, as JS
objects do).  Truthiness of strings (`!s`, `s || d`) is modelled explicitly:
the empty string is falsy.
-/

/-- JS object read `m[k]`: first entry with the key, if any. -/
def getAssoc {β : Type} (m : List (String × β)) (k : String) : Option β :=
  match m with
  | [] => none
  | (k', v) :: rest => if k' = k then some v else getAssoc rest k

/-- JS object write `m[k] = v`: replace in place if the key exists, else append. -/
def setAssoc {β : Type} (m : List (String × β)) (k : String) (v : β) :
    List (String × β) :=
  match m with
  | [] => [(k, v)]
  | (k', v') :: rest =>
      if k' = k then (k, v) :: rest else (k', v') :: setAssoc rest k v

/-- JS `Set.add`: append if absent (insertion order preserved). -/
def setAdd (s : List String) (x : String) : List String :=
  if x ∈ s then s else s ++ [x]

/-- JS `senderId || "unknown"`: `undefined` and `""` are falsy. -/
def jsOrDefault (o : Option String) (d : String) : String :=
  match o with
  | none => d
  | some s => if s = "" then d else s

/-- JS `fileName || null`: `undefined` and `""` collapse to `null`. -/
def jsOrNull (o : Option String) : Option String :=
  match o with
  | none => none
  | some s => if s = "" then none else some s

/-- The encrypted payload of a message: `{ ciphertext, nonce }`. -/
structure Encrypted where
  ciphertext : String
  nonce : String
deriving DecidableEq, Repr

/-- A stored message (see the `sessions` shape comment in `server.js`). -/
structure Message where
  id : String
  senderId : String
  type : String
  encrypted : Encrypted
  fileName : Option String
deriving DecidableEq, Repr

/-- One session: `{ code, active, messages, participants, lastSeen }`. -/
structure Session where
  code : String
  active : Bool
  messages : List Message
  participants : List String
  lastSeen : List (String × Nat)
deriving DecidableEq, Repr

/-- The global `sessions` object: session id → session state. -/
abbrev Sessions := List (String × Session)

instance {ε α : Type} [DecidableEq ε] [DecidableEq α] :
    DecidableEq (Except ε α) := fun x y =>
  match x, y with
  | .error e, .error e' =>
      if h : e = e' then .isTrue (by rw [h])
      else .isFalse (by intro hc; cases hc; exact h rfl)
  | .error _, .ok _ => .isFalse (by intro hc; cases hc)
  | .ok _, .error _ => .isFalse (by intro hc; cases hc)
  | .ok a, .ok b =>
      if h : a = b then .isTrue (by rw [h])
      else .isFalse (by intro hc; cases hc; exact h rfl)

/-- HTTP error responses of the API, by taxonomy:
400 → `invalidInput`, 404 → `notFound`, 403 → `capacityExceeded`
(and, for the tiered model below, `quotaExceeded`). -/
inductive ApiError
  | invalidInput
  | notFound
  | capacityExceeded
  | quotaExceeded
deriving DecidableEq, Repr

/-- Constant `OFFLINE_TIMEOUT_MS = 20000` in `server.js`. -/
def OFFLINE_TIMEOUT_MS : Nat := 20000

/-- The `^\d{6}$` test guarding session creation. -/
def isSixDigitCode (code : String) : Bool :=
  code.length == 6 && code.toList.all Char.isDigit

/-- Route `POST /sessions/create`: validate code and deviceId, then store a fresh
active session whose creator is the first participant.  The fresh random id
produced by `createId()` is passed in as `sessionId`. -/
def createSession (st : Sessions) (sessionId code deviceId : String)
    (now : Nat) : Sessions × Except ApiError String :=
  if code = "" then (st, .error .invalidInput)
  else if !isSixDigitCode code then (st, .error .invalidInput)
  else if deviceId = "" then (st, .error .invalidInput)
  else
    (setAssoc st sessionId
      { code := code, active := true, messages := [],
        participants := [deviceId], lastSeen := [(deviceId, now)] },
     .ok sessionId)

/-- Lookup `Object.entries(sessions).find(([, sess]) => sess.code === code && sess.active)`. -/
def findByCode (st : Sessions) (code : String) : Option (String × Session) :=
  st.find? (fun e => e.2.code == code && e.2.active)

/-- Route `POST /sessions/join`: resolve the first active session with the code;
reconnect idempotently, enforce the two-device cap, otherwise add the device
and stamp its `lastSeen`. -/
def joinSession (st : Sessions) (code deviceId : String) (now : Nat) :
    Sessions × Except ApiError String :=
  if code = "" then (st, .error .invalidInput)
  else if deviceId = "" then (st, .error .invalidInput)
  else
    match findByCode st code with
    | none => (st, .error .notFound)
    | some (sessionId, session) =>
        if deviceId ∈ session.participants then (st, .ok sessionId)
        else if 2 ≤ session.participants.length then
          (st, .error .capacityExceeded)
        else
          (setAssoc st sessionId
            { session with
                participants := session.participants ++ [deviceId],
                lastSeen := setAssoc session.lastSeen deviceId now },
           .ok sessionId)

/-- The burn performed at `server.js:131-133` and `server.js:202-204`:
deactivate, clear messages, clear participants.  `code` and `lastSeen` are not
touched. -/
def burnSession (s : Session) : Session :=
  { s with active := false, messages := [], participants := [] }

/-- Route `POST /sessions/end`: burn the session's data. -/
def endSession (st : Sessions) (sessionId : String) :
    Sessions × Except ApiError Unit :=
  match getAssoc st sessionId with
  | none => (st, .error .notFound)
  | some session => (setAssoc st sessionId (burnSession session), .ok ())

/-- Body of a `GET /sessions/status/:sessionId` response: either the
`{active, participants}` probe result or an `{error}` body. -/
inductive StatusBody
  | ok (active : Bool) (participants : Nat)
  | err (msg : String)
deriving DecidableEq, Repr

/-- Route `GET /sessions/status/:sessionId`: unknown sessions get a 404 status code
but the same success-shaped body `{active:false, participants:0}`; known
sessions report their flag and participant count. -/
def statusSession (st : Sessions) (sessionId : String) : Nat × StatusBody :=
  match getAssoc st sessionId with
  | none => (404, .ok false 0)
  | some session => (200, .ok session.active session.participants.length)

/-- The `lastSeen`/`participants` refresh a heartbeat performs before its
staleness check (`server.js:183-192`). -/
def touchSession (s : Session) (deviceId : String) (now : Nat) : Session :=
  { s with
      participants := setAdd s.participants deviceId,
      lastSeen := setAssoc s.lastSeen deviceId now }

/-- The staleness test of `server.js:196-200`: at least two `lastSeen` entries
and some other device whose last-seen age exceeds the offline timeout. -/
def staleCheck (lastSeen : List (String × Nat)) (deviceId : String)
    (now : Nat) : Bool :=
  decide (2 ≤ lastSeen.length) &&
    lastSeen.any (fun e => e.1 != deviceId && decide (OFFLINE_TIMEOUT_MS < now - e.2))

/-- Route `POST /sessions/heartbeat`: refresh the caller's membership and
`lastSeen`, then burn the session and report `ended=true` when the staleness
test fires; otherwise report `ended=false`. -/
def heartbeat (st : Sessions) (sessionId deviceId : String) (now : Nat) :
    Sessions × Except ApiError Bool :=
  if sessionId = "" then (st, .error .invalidInput)
  else if deviceId = "" then (st, .error .invalidInput)
  else
    match getAssoc st sessionId with
    | none => (st, .error .notFound)
    | some session =>
        if !session.active then (st, .error .notFound)
        else
          if staleCheck (touchSession session deviceId now).lastSeen deviceId now then
            (setAssoc st sessionId (burnSession (touchSession session deviceId now)),
             .ok true)
          else
            (setAssoc st sessionId (touchSession session deviceId now), .ok false)

/-- Route `GET /messages/:sessionId`: the messages of a known active session. -/
def listMessages (st : Sessions) (sessionId : String) :
    Except ApiError (List Message) :=
  match getAssoc st sessionId with
  | none => .error .notFound
  | some session =>
      if !session.active then .error .notFound else .ok session.messages

/-- The message object built at `server.js:252-258`. -/
def mkMessage (msgId : String) (senderId : Option String)
    (type : Option String) (encrypted : Encrypted)
    (fileName : Option String) : Message :=
  { id := msgId,
    senderId := jsOrDefault senderId "unknown",
    type := if type == some "image" then "image" else "text",
    encrypted := encrypted,
    fileName := jsOrNull fileName }

/-- Route `POST /messages`: on a known active session, require a structurally
present payload (truthy ciphertext and nonce) and append the message.  The
fresh id from `createId()` is passed in as `msgId`. -/
def postMessage (st : Sessions) (sessionId : String) (senderId : Option String)
    (encrypted : Option Encrypted) (type fileName : Option String)
    (msgId : String) : Sessions × Except ApiError Message :=
  match getAssoc st sessionId with
  | none => (st, .error .notFound)
  | some session =>
      if !session.active then (st, .error .notFound)
      else
        match encrypted with
        | none => (st, .error .invalidInput)
        | some e =>
            if e.ciphertext = "" || e.nonce = "" then
              (st, .error .invalidInput)
            else
              (setAssoc st sessionId
                { session with messages :=
                    session.messages ++ [mkMessage msgId senderId type e fileName] },
               .ok (mkMessage msgId senderId type e fileName))

/-- One state-changing API call, for reasoning about operation sequences. -/
inductive Op
  | create (sessionId code deviceId : String) (now : Nat)
  | join (code deviceId : String) (now : Nat)
  | endS (sessionId : String)
  | hb (sessionId deviceId : String) (now : Nat)
  | post (sessionId : String) (senderId : Option String)
      (encrypted : Option Encrypted) (type fileName : Option String)
      (msgId : String)

/-- State transition of one operation (the response is discarded). -/
def applyOp (st : Sessions) : Op → Sessions
  | .create sid c d n => (createSession st sid c d n).1
  | .join c d n => (joinSession st c d n).1
  | .endS sid => (endSession st sid).1
  | .hb sid d n => (heartbeat st sid d n).1
  | .post sid s e t f m => (postMessage st sid s e t f m).1

/-- Run a sequence of operations from a state. -/
def runOps (st : Sessions) (ops : List Op) : Sessions :=
  ops.foldl applyOp st

/-- Whether an operation is a heartbeat. -/
def Op.isHeartbeat : Op → Bool
  | .hb _ _ _ => true
  | _ => false

/-- Whether an operation is a `create` that (re)uses the given session id. -/
def Op.createsId (op : Op) (sid : String) : Bool :=
  match op with
  | .create sid' _ _ _ => sid' == sid
  | _ => false

/-! ## Association-list lemmas -/

theorem getAssoc_setAssoc_self {β : Type} (m : List (String × β)) (k : String)
    (v : β) : getAssoc (setAssoc m k v) k = some v := by
  induction m with
  | nil => simp [setAssoc, getAssoc]
  | cons e rest ih =>
      obtain ⟨k', v'⟩ := e
      by_cases h : k' = k
      · simp [setAssoc, getAssoc, h]
      · simp [setAssoc, getAssoc, h, ih]

theorem getAssoc_setAssoc_ne {β : Type} (m : List (String × β)) {k k' : String}
    (v : β) (h : k ≠ k') : getAssoc (setAssoc m k v) k' = getAssoc m k' := by
  induction m with
  | nil => simp [setAssoc, getAssoc, h]
  | cons e rest ih =>
      obtain ⟨a, b⟩ := e
      by_cases ha : a = k
      · subst ha
        simp [setAssoc, getAssoc, h]
      · simp [setAssoc, getAssoc, ha, ih]

theorem getAssoc_mem {β : Type} {m : List (String × β)} {k : String} {v : β}
    (h : getAssoc m k = some v) : (k, v) ∈ m := by
  induction m with
  | nil => simp [getAssoc] at h
  | cons e rest ih =>
      obtain ⟨a, b⟩ := e
      by_cases ha : a = k
      · subst ha
        simp [getAssoc] at h
        subst h
        exact List.mem_cons_self _ _
      · simp [getAssoc, ha] at h
        exact List.mem_cons_of_mem _ (ih h)

/-- The state's keys are pairwise distinct (true of every reachable state,
since `setAssoc` never duplicates a key). -/
def keysNodup {β : Type} (m : List (String × β)) : Prop :=
  (m.map Prod.fst).Nodup

theorem mem_keys_setAssoc {β : Type} {m : List (String × β)} {k a : String}
    {v : β} (h : a ∈ (setAssoc m k v).map Prod.fst) :
    a ∈ m.map Prod.fst ∨ a = k := by
  induction m with
  | nil =>
      simp only [setAssoc, List.map_cons, List.map_nil,
        List.mem_singleton] at h
      exact Or.inr h
  | cons e rest ih =>
      obtain ⟨k', v'⟩ := e
      by_cases hk : k' = k
      · have hred : setAssoc ((k', v') :: rest) k v = (k, v) :: rest := by
          simp [setAssoc, hk]
        rw [hred, List.map_cons, List.mem_cons] at h
        rcases h with h | h
        · exact Or.inr h
        · exact Or.inl (List.mem_cons_of_mem _ h)
      · have hred : setAssoc ((k', v') :: rest) k v =
            (k', v') :: setAssoc rest k v := by
          simp [setAssoc, hk]
        rw [hred, List.map_cons, List.mem_cons] at h
        rcases h with h | h
        · exact Or.inl (List.mem_cons.mpr (Or.inl h))
        · rcases ih h with h' | h'
          · exact Or.inl (List.mem_cons_of_mem _ h')
          · exact Or.inr h'

theorem keysNodup_setAssoc {β : Type} {m : List (String × β)} {k : String}
    {v : β} (h : keysNodup m) : keysNodup (setAssoc m k v) := by
  induction m with
  | nil => simp [keysNodup, setAssoc]
  | cons e rest ih =>
      obtain ⟨k', v'⟩ := e
      simp only [keysNodup, List.map_cons, List.nodup_cons] at h
      obtain ⟨hk', hrest⟩ := h
      by_cases hk : k' = k
      · have hred : setAssoc ((k', v') :: rest) k v = (k, v) :: rest := by
          simp [setAssoc, hk]
        unfold keysNodup
        rw [hred, List.map_cons, List.nodup_cons]
        exact ⟨hk ▸ hk', hrest⟩
      · have hred : setAssoc ((k', v') :: rest) k v =
            (k', v') :: setAssoc rest k v := by
          simp [setAssoc, hk]
        unfold keysNodup
        rw [hred, List.map_cons, List.nodup_cons]
        refine ⟨fun hmem => ?_, ih hrest⟩
        rcases mem_keys_setAssoc hmem with h1 | h1
        · exact hk' h1
        · exact hk h1

theorem getAssoc_eq_of_mem {β : Type} {m : List (String × β)} {k : String}
    {v : β} (hnd : keysNodup m) (hmem : (k, v) ∈ m) : getAssoc m k = some v := by
  induction m with
  | nil => cases hmem
  | cons e rest ih =>
      obtain ⟨k', v'⟩ := e
      simp only [keysNodup, List.map_cons, List.nodup_cons] at hnd
      rcases List.mem_cons.mp hmem with h | h
      · obtain ⟨rfl, rfl⟩ := Prod.mk.injEq .. ▸ h
        simp [getAssoc]
      · have hk : k' ≠ k := by
          intro hkk
          subst hkk
          exact hnd.1 (List.mem_map.mpr ⟨(k', v), h, rfl⟩)
        simp only [getAssoc, hk, if_false]
        exact ih hnd.2 h

theorem findByCode_mem {st : Sessions} {code sid : String} {s : Session}
    (h : findByCode st code = some (sid, s)) :
    (sid, s) ∈ st ∧ s.code = code ∧ s.active = true := by
  have hm := List.mem_of_find?_eq_some h
  have hp := List.find?_some h
  simp only [Bool.and_eq_true, beq_iff_eq] at hp
  exact ⟨hm, hp.1, hp.2⟩

/-! ## Per-session invariants over reachable states -/

/-- Predicate `P` holds of every session stored in the state. -/
def SessionsInv (P : Session → Prop) (st : Sessions) : Prop :=
  ∀ e ∈ st, P e.2

theorem sessionsInv_setAssoc {P : Session → Prop} {st : Sessions} {k : String}
    {v : Session} (h : SessionsInv P st) (hv : P v) :
    SessionsInv P (setAssoc st k v) := by
  induction st with
  | nil =>
      intro e he
      simp [setAssoc] at he
      subst he
      exact hv
  | cons a rest ih =>
      obtain ⟨k', v'⟩ := a
      by_cases hk : k' = k
      · intro e he
        simp only [setAssoc, hk, if_true, List.mem_cons] at he
        rcases he with he | he
        · subst he; exact hv
        · exact h e (List.mem_cons_of_mem _ he)
      · intro e he
        simp only [setAssoc, hk, if_false, List.mem_cons] at he
        rcases he with he | he
        · exact h e (by simp [he])
        · exact ih (fun e' he' => h e' (List.mem_cons_of_mem _ he')) e he

theorem sessionsInv_getAssoc {P : Session → Prop} {st : Sessions} {k : String}
    {v : Session} (h : SessionsInv P st) (hg : getAssoc st k = some v) : P v :=
  h (k, v) (getAssoc_mem hg)

/-- An inactive session carries no participants and no messages. -/
def BurnImpliesEmpty (s : Session) : Prop :=
  s.active = false → s.participants = [] ∧ s.messages = []

/-- The spec's two-device cap on a single session. -/
def CappedAtTwo (s : Session) : Prop := s.participants.length ≤ 2

instance (P : Session → Prop) [DecidablePred P] (st : Sessions) :
    Decidable (SessionsInv P st) :=
  List.decidableBAll _ st

instance : DecidablePred BurnImpliesEmpty := fun s => by
  unfold BurnImpliesEmpty; infer_instance

instance : DecidablePred CappedAtTwo := fun s => by
  unfold CappedAtTwo; infer_instance

theorem burnImpliesEmpty_applyOp {st : Sessions}
    (h : SessionsInv BurnImpliesEmpty st) (op : Op) :
    SessionsInv BurnImpliesEmpty (applyOp st op) := by
  cases op with
  | create sid c d n =>
      simp only [applyOp, createSession]
      split
      · exact h
      split
      · exact h
      split
      · exact h
      exact sessionsInv_setAssoc h (fun hact => by simp at hact)
  | join c d n =>
      simp only [applyOp, joinSession]
      split
      · exact h
      split
      · exact h
      split
      · exact h
      next sessionId session heq =>
        split
        · exact h
        split
        · exact h
        refine sessionsInv_setAssoc h fun hact => ?_
        have h2 : session.active = false := hact
        rw [(findByCode_mem heq).2.2] at h2
        cases h2
  | endS sid =>
      simp only [applyOp, endSession]
      split
      · exact h
      exact sessionsInv_setAssoc h (fun _ => ⟨rfl, rfl⟩)
  | hb sid d n =>
      simp only [applyOp, heartbeat]
      split
      · exact h
      split
      · exact h
      split
      · exact h
      next session heq =>
        split
        next hact => exact h
        next hact =>
          split
          · exact sessionsInv_setAssoc h (fun _ => ⟨rfl, rfl⟩)
          · refine sessionsInv_setAssoc h fun hfalse => ?_
            have h2 : session.active = false := hfalse
            simp [h2] at hact
  | post sid sender e t f mid =>
      simp only [applyOp, postMessage]
      split
      · exact h
      next session heq =>
        split
        next hact => exact h
        next hact =>
          split
          · exact h
          next enc =>
            split
            · exact h
            · refine sessionsInv_setAssoc h fun hfalse => ?_
              have h2 : session.active = false := hfalse
              simp [h2] at hact

theorem burnImpliesEmpty_runOps {st : Sessions}
    (h : SessionsInv BurnImpliesEmpty st) (ops : List Op) :
    SessionsInv BurnImpliesEmpty (runOps st ops) := by
  induction ops generalizing st with
  | nil => exact h
  | cons op rest ih =>
      simp only [runOps, List.foldl_cons]
      exact ih (burnImpliesEmpty_applyOp h op)

theorem cappedAtTwo_applyOp {st : Sessions}
    (h : SessionsInv CappedAtTwo st) (op : Op)
    (hop : op.isHeartbeat = false) : SessionsInv CappedAtTwo (applyOp st op) := by
  cases op with
  | create sid c d n =>
      simp only [applyOp, createSession]
      split
      · exact h
      split
      · exact h
      split
      · exact h
      exact sessionsInv_setAssoc h (by simp [CappedAtTwo])
  | join c d n =>
      simp only [applyOp, joinSession]
      split
      · exact h
      split
      · exact h
      split
      · exact h
      next sessionId session heq =>
        split
        · exact h
        split
        · exact h
        next hcap =>
          refine sessionsInv_setAssoc h ?_
          unfold CappedAtTwo
          simp only [List.length_append, List.length_cons, List.length_nil]
          omega
  | endS sid =>
      simp only [applyOp, endSession]
      split
      · exact h
      exact sessionsInv_setAssoc h (by simp [CappedAtTwo, burnSession])
  | hb sid d n => cases hop
  | post sid sender e t f mid =>
      simp only [applyOp, postMessage]
      split
      · exact h
      next session heq =>
        split
        · exact h
        split
        · exact h
        split
        · exact h
        have hs : CappedAtTwo session := sessionsInv_getAssoc h heq
        exact sessionsInv_setAssoc h hs

theorem cappedAtTwo_runOps {st : Sessions}
    (h : SessionsInv CappedAtTwo st) (ops : List Op)
    (hops : ∀ op ∈ ops, op.isHeartbeat = false) :
    SessionsInv CappedAtTwo (runOps st ops) := by
  induction ops generalizing st with
  | nil => exact h
  | cons op rest ih =>
      simp only [runOps, List.foldl_cons]
      exact ih (cappedAtTwo_applyOp h op (hops op (List.mem_cons_self _ _)))
        (fun o ho => hops o (List.mem_cons_of_mem _ ho))

theorem applyOp_keysNodup {st : Sessions} (hnd : keysNodup st) (op : Op) :
    keysNodup (applyOp st op) := by
  cases op <;>
    simp only [applyOp, createSession, joinSession, endSession, heartbeat,
      postMessage] <;>
    (repeat' split) <;>
    first
      | exact hnd
      | exact keysNodup_setAssoc hnd

theorem runOps_keysNodup {st : Sessions} (hnd : keysNodup st) (ops : List Op) :
    keysNodup (runOps st ops) := by
  induction ops generalizing st with
  | nil => exact hnd
  | cons op rest ih =>
      simp only [runOps, List.foldl_cons]
      exact ih (applyOp_keysNodup hnd op)

/-- Once a session is stored inactive, any operation that does not reuse its
identifier for a fresh `create` leaves it inactive (no reactivation path). -/
theorem inactive_preserved {st : Sessions} {sid : String} {s : Session}
    (hnd : keysNodup st) (hget : getAssoc st sid = some s)
    (hdead : s.active = false) (op : Op) (hop : op.createsId sid = false) :
    ∃ s', getAssoc (applyOp st op) sid = some s' ∧ s'.active = false := by
  cases op with
  | create sid' c d n =>
      have hne : sid' ≠ sid := by simpa [Op.createsId] using hop
      simp only [applyOp, createSession]
      split
      · exact ⟨s, hget, hdead⟩
      split
      · exact ⟨s, hget, hdead⟩
      split
      · exact ⟨s, hget, hdead⟩
      exact ⟨s, (getAssoc_setAssoc_ne st _ hne).trans hget, hdead⟩
  | join c d n =>
      simp only [applyOp, joinSession]
      split
      · exact ⟨s, hget, hdead⟩
      split
      · exact ⟨s, hget, hdead⟩
      split
      · exact ⟨s, hget, hdead⟩
      next sessionId session heq =>
        split
        · exact ⟨s, hget, hdead⟩
        split
        · exact ⟨s, hget, hdead⟩
        have hmem := findByCode_mem heq
        have hne : sessionId ≠ sid := by
          intro hEq
          subst hEq
          have hg2 : getAssoc st sessionId = some session :=
            getAssoc_eq_of_mem hnd hmem.1
          rw [hget] at hg2
          obtain rfl : s = session := Option.some.inj hg2
          rw [hdead] at hmem
          cases hmem.2.2
        exact ⟨s, (getAssoc_setAssoc_ne st _ hne).trans hget, hdead⟩
  | endS sid' =>
      simp only [applyOp, endSession]
      split
      · exact ⟨s, hget, hdead⟩
      next session heq =>
        by_cases hEq : sid' = sid
        · subst hEq
          exact ⟨burnSession session, getAssoc_setAssoc_self st sid' _, rfl⟩
        · exact ⟨s, (getAssoc_setAssoc_ne st _ hEq).trans hget, hdead⟩
  | hb sid' d n =>
      simp only [applyOp, heartbeat]
      split
      · exact ⟨s, hget, hdead⟩
      split
      · exact ⟨s, hget, hdead⟩
      split
      · exact ⟨s, hget, hdead⟩
      next session heq =>
        split
        next hact => exact ⟨s, hget, hdead⟩
        next hact =>
          have hactive : session.active = true := by
            cases hA : session.active
            · simp [hA] at hact
            · rfl
          have hne : sid' ≠ sid := by
            intro hEq
            subst hEq
            rw [hget] at heq
            obtain rfl : s = session := Option.some.inj heq
            rw [hdead] at hactive
            cases hactive
          split
          · exact ⟨s, (getAssoc_setAssoc_ne st _ hne).trans hget, hdead⟩
          · exact ⟨s, (getAssoc_setAssoc_ne st _ hne).trans hget, hdead⟩
  | post sid' sender e t f mid =>
      simp only [applyOp, postMessage]
      split
      · exact ⟨s, hget, hdead⟩
      next session heq =>
        split
        next hact => exact ⟨s, hget, hdead⟩
        next hact =>
          have hactive : session.active = true := by
            cases hA : session.active
            · simp [hA] at hact
            · rfl
          have hne : sid' ≠ sid := by
            intro hEq
            subst hEq
            rw [hget] at heq
            obtain rfl : s = session := Option.some.inj heq
            rw [hdead] at hactive
            cases hactive
          split
          · exact ⟨s, hget, hdead⟩
          next e' =>
            split
            · exact ⟨s, hget, hdead⟩
            · exact ⟨s, (getAssoc_setAssoc_ne st _ hne).trans hget, hdead⟩

theorem inactive_preserved_runOps {st : Sessions} {sid : String} {s : Session}
    (hnd : keysNodup st) (hget : getAssoc st sid = some s)
    (hdead : s.active = false) (ops : List Op)
    (hops : ∀ op ∈ ops, op.createsId sid = false) :
    ∃ s', getAssoc (runOps st ops) sid = some s' ∧ s'.active = false := by
  induction ops generalizing st s with
  | nil => exact ⟨s, hget, hdead⟩
  | cons op rest ih =>
      simp only [runOps, List.foldl_cons]
      obtain ⟨s', hget', hdead'⟩ :=
        inactive_preserved hnd hget hdead op (hops op (List.mem_cons_self _ _))
      exact ih (applyOp_keysNodup hnd op) hget' hdead'
        (fun o ho => hops o (List.mem_cons_of_mem _ ho))

/-! ## Claim theorems -/

/-- C1 counterexample: the claim that `participants.size` never exceeds 2
across any sequence of join/heartbeat operations is false.  After
`create("123456","d1")`, heartbeats from the new devices `d2` and `d3`
(within the offline timeout) leave the session with three participants,
because heartbeat adds the caller to `participants` without any capacity
check (`server.js:186`). -/
theorem c1_counterexample :
    ¬ SessionsInv CappedAtTwo (runOps []
      [Op.create "S" "123456" "d1" 0, Op.hb "S" "d2" 5, Op.hb "S" "d3" 10]) := by
  decide

/-- C1 amended: across any sequence of operations that contains no heartbeat
(creates, joins, ends, posts), every session's participant set stays at
size ≤ 2; only the heartbeat route can push it beyond the cap. -/
theorem c1_cap_without_heartbeat (ops : List Op)
    (hops : ∀ op ∈ ops, op.isHeartbeat = false) :
    SessionsInv CappedAtTwo (runOps [] ops) :=
  cappedAtTwo_runOps (fun _ he => absurd he (List.not_mem_nil _)) ops hops

/-- Witness for `c1_cap_without_heartbeat` at a concrete create/join/join
sequence. -/
theorem c1_cap_without_heartbeat_witness :
    SessionsInv CappedAtTwo (runOps []
      [Op.create "S" "123456" "d1" 0, Op.join "123456" "d2" 1,
       Op.join "123456" "d3" 2]) :=
  c1_cap_without_heartbeat _ (by decide)

/-- C4: for every sequence of operations from the initial empty store,
every session whose `active` flag is false has empty participants and empty
messages (every deactivation path burns both, atomically). -/
theorem c4_inactive_sessions_empty (ops : List Op) :
    SessionsInv BurnImpliesEmpty (runOps [] ops) :=
  burnImpliesEmpty_runOps (fun _ he => absurd he (List.not_mem_nil _)) ops

/-- C5: after `endSession` succeeds on a session, every subsequent
`listMessages` on it fails with `NotFound`, across any further operations
(session ids are never reused, so no later `create` reissues this id). -/
theorem c5_end_then_list_notFound (ops1 : List Op) (sid : String)
    (ops2 : List Op)
    (hok : (endSession (runOps [] ops1) sid).2 = .ok ())
    (hops2 : ∀ op ∈ ops2, op.createsId sid = false) :
    listMessages (runOps (endSession (runOps [] ops1) sid).1 ops2) sid =
      .error .notFound := by
  have hnd : keysNodup (runOps [] ops1) :=
    runOps_keysNodup (by simp [keysNodup]) ops1
  obtain ⟨session, hget⟩ : ∃ s, getAssoc (runOps [] ops1) sid = some s := by
    cases hg : getAssoc (runOps [] ops1) sid with
    | none =>
        exfalso
        unfold endSession at hok
        rw [hg] at hok
        simp at hok
    | some s => exact ⟨s, rfl⟩
  have hstate : (endSession (runOps [] ops1) sid).1 =
      setAssoc (runOps [] ops1) sid (burnSession session) := by
    unfold endSession
    rw [hget]
  rw [hstate]
  obtain ⟨s', hget', hdead'⟩ :=
    inactive_preserved_runOps (keysNodup_setAssoc hnd)
      (getAssoc_setAssoc_self (runOps [] ops1) sid (burnSession session))
      rfl ops2 hops2
  unfold listMessages
  rw [hget']
  simp [hdead']

/-- Witness for `c5_end_then_list_notFound`: create a session, end it, then
heartbeat and re-join attempts still leave `listMessages` failing. -/
theorem c5_end_then_list_notFound_witness :
    listMessages (runOps (endSession (runOps []
        [Op.create "S" "123456" "d1" 0]) "S").1
      [Op.hb "S" "d1" 1, Op.join "123456" "d2" 2]) "S" = .error .notFound :=
  c5_end_then_list_notFound [Op.create "S" "123456" "d1" 0] "S"
    [Op.hb "S" "d1" 1, Op.join "123456" "d2" 2] (by decide) (by decide)

/-- C6: on an active session, a heartbeat stamps the calling device's
`lastSeen` to `now`, and burns the session reporting `ended=true` exactly
when the refreshed `lastSeen` has at least two entries and some other
device's last-seen age exceeds `OFFLINE_TIMEOUT_MS`; otherwise it reports
`ended=false`.  The burn is the same `burnSession` used by `endSession`. -/
theorem c6_heartbeat_behavior (st : Sessions) (sid d : String) (now : Nat)
    (s : Session) (hsid : sid ≠ "") (hd : d ≠ "")
    (hget : getAssoc st sid = some s) (hact : s.active = true) :
    getAssoc (touchSession s d now).lastSeen d = some now ∧
    (staleCheck (touchSession s d now).lastSeen d now = true →
      heartbeat st sid d now =
        (setAssoc st sid (burnSession (touchSession s d now)), .ok true)) ∧
    (staleCheck (touchSession s d now).lastSeen d now = false →
      heartbeat st sid d now =
        (setAssoc st sid (touchSession s d now), .ok false)) := by
  refine ⟨getAssoc_setAssoc_self _ _ _, ?_, ?_⟩ <;>
    · intro hstale
      simp [heartbeat, hsid, hd, hget, hact, hstale]

/-- Witness for `c6_heartbeat_behavior`: device `d2` heartbeats at
`now = 30000` while `d1` was last seen at 0, so the 20s staleness check
fires and the session is burned with `ended=true`. -/
theorem c6_heartbeat_behavior_witness :
    heartbeat [("S", ⟨"123456", true, [], ["d1"], [("d1", 0)]⟩)] "S" "d2"
        30000 =
      (setAssoc [("S", ⟨"123456", true, [], ["d1"], [("d1", 0)]⟩)] "S"
        (burnSession
          (touchSession ⟨"123456", true, [], ["d1"], [("d1", 0)]⟩ "d2" 30000)),
       .ok true) :=
  (c6_heartbeat_behavior _ "S" "d2" 30000 _ (by decide) (by decide)
    (by decide) rfl).2.1 (by decide)

/-- C7: the status probe is total.  Its body is always the success shape
`{active, participants}` (never an error body), and an unknown session id
yields the 404-coded default `{active:false, participants:0}`. -/
theorem c7_status_never_fails :
    (∀ (st : Sessions) (sid : String),
      ∃ a n, (statusSession st sid).2 = .ok a n) ∧
    (∀ (st : Sessions) (sid : String), getAssoc st sid = none →
      statusSession st sid = (404, .ok false 0)) := by
  constructor
  · intro st sid
    unfold statusSession
    cases hg : getAssoc st sid with
    | none => exact ⟨false, 0, rfl⟩
    | some s => exact ⟨s.active, s.participants.length, rfl⟩
  · intro st sid h
    unfold statusSession
    rw [h]

/-- Witness for `c7_status_never_fails` on an unknown session id. -/
theorem c7_status_never_fails_witness :
    statusSession [] "missing" = (404, .ok false 0) :=
  c7_status_never_fails.2 [] "missing" rfl

/-- C8: burning (the transformation applied by `endSession` and by the
heartbeat staleness path) changes only `active`, `participants` and
`messages`; `code` and `lastSeen` are untouched by the burn.  `endSession`
applies exactly `burnSession`; a heartbeat-triggered burn applies
`burnSession` to the touched session, whose `code` is the original code and
whose `lastSeen` is the original map with only the heartbeating device's
timestamp refreshed — so a burned session still carries its rendezvous code
and last-seen timestamps. -/
theorem c8_burn_frame :
    (∀ s : Session,
      (burnSession s).code = s.code ∧ (burnSession s).lastSeen = s.lastSeen ∧
      (burnSession s).active = false ∧ (burnSession s).participants = [] ∧
      (burnSession s).messages = []) ∧
    (∀ (st : Sessions) (sid : String) (s : Session),
      getAssoc st sid = some s →
      endSession st sid = (setAssoc st sid (burnSession s), .ok ())) ∧
    (∀ (st : Sessions) (sid d : String) (now : Nat) (s : Session),
      sid ≠ "" → d ≠ "" → getAssoc st sid = some s → s.active = true →
      staleCheck (touchSession s d now).lastSeen d now = true →
      heartbeat st sid d now =
        (setAssoc st sid (burnSession (touchSession s d now)), .ok true) ∧
      (burnSession (touchSession s d now)).code = s.code ∧
      (burnSession (touchSession s d now)).lastSeen =
        setAssoc s.lastSeen d now) := by
  refine ⟨fun s => ⟨rfl, rfl, rfl, rfl, rfl⟩, ?_, ?_⟩
  · intro st sid s hget
    unfold endSession
    rw [hget]
  · intro st sid d now s hsid hd hget hact hstale
    refine ⟨?_, rfl, rfl⟩
    simp [heartbeat, hsid, hd, hget, hact, hstale]

/-- Witness for `c8_burn_frame` (third conjunct) at a concrete staleness
burn. -/
theorem c8_burn_frame_witness :
    heartbeat [("S", ⟨"123456", true, [], ["d1"], [("d1", 0)]⟩)] "S" "d2"
        30000 =
      (setAssoc [("S", ⟨"123456", true, [], ["d1"], [("d1", 0)]⟩)] "S"
        (burnSession
          (touchSession ⟨"123456", true, [], ["d1"], [("d1", 0)]⟩ "d2" 30000)),
       .ok true) ∧
    (burnSession
      (touchSession ⟨"123456", true, [], ["d1"], [("d1", 0)]⟩ "d2" 30000)).code
        = "123456" ∧
    (burnSession
      (touchSession ⟨"123456", true, [], ["d1"], [("d1", 0)]⟩ "d2"
        30000)).lastSeen = setAssoc [("d1", 0)] "d2" 30000 :=
  c8_burn_frame.2.2 _ "S" "d2" 30000 _ (by decide) (by decide) (by decide)
    rfl (by decide)

/-- C9: `postMessage` never checks that the sender is a participant.  On any
active session, any `senderId` (including `none`, i.e. omitted, which is
stored as the sentinel `"unknown"`) succeeds and appends the message,
provided the payload is structurally valid. -/
theorem c9_post_no_membership_check (st : Sessions) (sid : String)
    (sender : Option String) (e : Encrypted) (t f : Option String)
    (mid : String) (s : Session) (hget : getAssoc st sid = some s)
    (hact : s.active = true) (hc : e.ciphertext ≠ "") (hn : e.nonce ≠ "") :
    postMessage st sid sender (some e) t f mid =
      (setAssoc st sid
        { s with messages := s.messages ++ [mkMessage mid sender t e f] },
       .ok (mkMessage mid sender t e f)) := by
  simp [postMessage, hget, hact, hc, hn]

/-- Witness for `c9_post_no_membership_check`: the sender is omitted and is
not a participant of the (full) session, yet the post succeeds. -/
theorem c9_post_no_membership_check_witness :
    postMessage [("S", ⟨"123456", true, [], ["a", "b"], [("a", 0)]⟩)] "S"
        none (some ⟨"c", "n"⟩) none none "m1" =
      (setAssoc [("S", ⟨"123456", true, [], ["a", "b"], [("a", 0)]⟩)] "S"
        { code := "123456", active := true,
          messages := [mkMessage "m1" none none ⟨"c", "n"⟩ none],
          participants := ["a", "b"], lastSeen := [("a", 0)] },
       .ok (mkMessage "m1" none none ⟨"c", "n"⟩ none)) :=
  c9_post_no_membership_check _ "S" none _ none none "m1"
    ⟨"123456", true, [], ["a", "b"], [("a", 0)]⟩ rfl rfl (by decide)
    (by decide)

/-- C10: a payload whose ciphertext or nonce is present but equal to the
empty string is rejected exactly like a missing payload — JS truthiness
(`!encrypted.ciphertext || !encrypted.nonce`) treats `""` as absent: the
post fails with `InvalidInput` and the state (hence the message list) is
unchanged. -/
theorem c10_empty_payload_rejected (st : Sessions) (sid : String)
    (sender : Option String) (e : Encrypted) (t f : Option String)
    (mid : String) (s : Session) (hget : getAssoc st sid = some s)
    (hact : s.active = true) (hempty : e.ciphertext = "" ∨ e.nonce = "") :
    postMessage st sid sender (some e) t f mid =
      (st, .error .invalidInput) := by
  rcases hempty with h0 | h0 <;> simp [postMessage, hget, hact, h0]

/-- Witness for `c10_empty_payload_rejected`: an empty ciphertext is
rejected with `InvalidInput` and the store is unchanged. -/
theorem c10_empty_payload_rejected_witness :
    postMessage [("S", ⟨"123456", true, [], ["a"], [("a", 0)]⟩)] "S"
        (some "a") (some ⟨"", "n"⟩) none none "m1" =
      ([("S", ⟨"123456", true, [], ["a"], [("a", 0)]⟩)],
       .error .invalidInput) :=
  c10_empty_payload_rejected _ "S" (some "a") _ none none "m1"
    ⟨"123456", true, [], ["a"], [("a", 0)]⟩ rfl rfl (Or.inl rfl)

/-!
## Tiered model (free/pro devices, session expiry, image quota)

The device registry, per-device tier, free-tier session expiry (`expiresAt`)
and daily image quota appear in the spec's final design (§3, §4.2, §4.4,
§4.5) but the iteration implementing them is not among the source files;
`src/server.js` has no tier, expiry or quota code.  The definitions in this
namespace are therefore modelled from the spec's words and carry the claims
that depend on them (C2, C3). -/

namespace Tiered

/-- Modelled from the spec: free-tier session lifetime (reference: 10 min). -/
def FREE_SESSION_LIFETIME_MS : Nat := 600000

/-- Modelled from the spec: free-tier daily image quota (reference: 5). -/
def FREE_DAILY_IMAGE_QUOTA : Nat := 5

/-- Modelled from the spec: the 24-hour window of the lazy daily reset. -/
def DAY_MS : Nat := 86400000

/-- Modelled from the spec: device tier, `{free, pro}`. -/
inductive Tier
  | free
  | pro
deriving DecidableEq, Repr

/-- Modelled from the spec: a device record with tier, daily image counter
and the wall-clock time of its last counter reset. -/
structure DeviceRecord where
  tier : Tier
  dailyImageCount : Nat
  lastResetAt : Nat
deriving DecidableEq, Repr

/-- Modelled from the spec: a session extended with the optional absolute
expiry deadline `expiresAt` (present for free-tier creators). -/
structure SessionT where
  code : String
  active : Bool
  messages : List Message
  participants : List String
  lastSeen : List (String × Nat)
  expiresAt : Option Nat
deriving DecidableEq, Repr

/-- Modelled from the spec: the session store plus the device registry. -/
structure StoreState where
  sessions : List (String × SessionT)
  devices : List (String × DeviceRecord)
deriving DecidableEq, Repr

/-- Modelled from the spec (§4.5): `getOrCreateDevice` creates on first
sight with `tier=free, dailyImageCount=0, lastResetAt=now`; on every access,
if more than 24h elapsed since `lastResetAt`, lazily resets the counter.
Returns the (possibly reset) record and the updated registry. -/
def getOrCreateDevice (devices : List (String × DeviceRecord))
    (deviceId : String) (now : Nat) :
    DeviceRecord × List (String × DeviceRecord) :=
  match getAssoc devices deviceId with
  | none =>
      (⟨.free, 0, now⟩, setAssoc devices deviceId ⟨.free, 0, now⟩)
  | some r =>
      if DAY_MS < now - r.lastResetAt then
        (⟨r.tier, 0, now⟩, setAssoc devices deviceId ⟨r.tier, 0, now⟩)
      else (r, devices)

/-- Modelled from the spec: whether a session's `expiresAt` has passed. -/
def isExpired (s : SessionT) (now : Nat) : Bool :=
  match s.expiresAt with
  | none => false
  | some e => decide (e < now)

/-- The burn, on tiered sessions: deactivate, clear messages and
participants; `code`, `lastSeen` and `expiresAt` untouched. -/
def burnSessionT (s : SessionT) : SessionT :=
  { s with active := false, messages := [], participants := [] }

/-- First active session with the code, in store iteration order. -/
def findByCodeT (ss : List (String × SessionT)) (code : String) :
    Option (String × SessionT) :=
  ss.find? (fun e => e.2.code == code && e.2.active)

/-- Modelled from the spec (§4.2): `createSession` with `expiresAt` computed
from the creating device's tier (free → now + 10 minutes; pro → unset). -/
def createSessionT (st : StoreState) (sessionId code deviceId : String)
    (now : Nat) : StoreState × Except ApiError String :=
  if code = "" then (st, .error .invalidInput)
  else if !isSixDigitCode code then (st, .error .invalidInput)
  else if deviceId = "" then (st, .error .invalidInput)
  else
    ({ sessions := setAssoc st.sessions sessionId
         { code := code, active := true, messages := [],
           participants := [deviceId], lastSeen := [(deviceId, now)],
           expiresAt :=
             match (getOrCreateDevice st.devices deviceId now).1.tier with
             | .free => some (now + FREE_SESSION_LIFETIME_MS)
             | .pro => none },
       devices := (getOrCreateDevice st.devices deviceId now).2 },
     .ok sessionId)

/-- Modelled from the spec (§4.2): `joinSession` resolves the first active
session by code; if its `expiresAt` has passed, the session is burned in
place and the join fails with `NotFound`; otherwise reconnect idempotently,
enforce the two-device cap, else add the device. -/
def joinSessionT (st : StoreState) (code deviceId : String) (now : Nat) :
    StoreState × Except ApiError String :=
  if code = "" then (st, .error .invalidInput)
  else if deviceId = "" then (st, .error .invalidInput)
  else
    match findByCodeT st.sessions code with
    | none => (st, .error .notFound)
    | some (sessionId, session) =>
        if isExpired session now then
          ({ st with sessions :=
              setAssoc st.sessions sessionId (burnSessionT session) },
           .error .notFound)
        else if deviceId ∈ session.participants then (st, .ok sessionId)
        else if 2 ≤ session.participants.length then
          (st, .error .capacityExceeded)
        else
          ({ st with
              sessions :=
                setAssoc st.sessions sessionId
                  { session with
                      participants := session.participants ++ [deviceId],
                      lastSeen := setAssoc session.lastSeen deviceId now } },
           .ok sessionId)

/-- Modelled from the spec (§4.4): `postMessage` with the lazy-expiry burn
and the free-tier image rate limit: on an image from a free-tier sender,
reject with `QuotaExceeded` once `dailyImageCount ≥ 5`, else increment the
counter and proceed. -/
def postMessageT (st : StoreState) (sessionId : String)
    (senderId : Option String) (encrypted : Option Encrypted)
    (kind fileName : Option String) (msgId : String) (now : Nat) :
    StoreState × Except ApiError Message :=
  match getAssoc st.sessions sessionId with
  | none => (st, .error .notFound)
  | some session =>
      if !session.active then (st, .error .notFound)
      else if isExpired session now then
        ({ st with sessions :=
            setAssoc st.sessions sessionId (burnSessionT session) },
         .error .notFound)
      else
        match encrypted with
        | none => (st, .error .invalidInput)
        | some e =>
            if e.ciphertext = "" || e.nonce = "" then
              (st, .error .invalidInput)
            else if kind == some "image" then
              if (getOrCreateDevice st.devices
                    (jsOrDefault senderId "unknown") now).1.tier = .free then
                if FREE_DAILY_IMAGE_QUOTA ≤
                    (getOrCreateDevice st.devices
                      (jsOrDefault senderId "unknown") now).1.dailyImageCount
                  then
                  ({ st with devices :=
                      (getOrCreateDevice st.devices
                        (jsOrDefault senderId "unknown") now).2 },
                   .error .quotaExceeded)
                else
                  ({ sessions := setAssoc st.sessions sessionId
                       { session with messages := session.messages ++
                           [mkMessage msgId senderId kind e fileName] },
                     devices := setAssoc
                       (getOrCreateDevice st.devices
                         (jsOrDefault senderId "unknown") now).2
                       (jsOrDefault senderId "unknown")
                       { (getOrCreateDevice st.devices
                           (jsOrDefault senderId "unknown") now).1 with
                           dailyImageCount :=
                             (getOrCreateDevice st.devices
                               (jsOrDefault senderId "unknown")
                               now).1.dailyImageCount + 1 } },
                   .ok (mkMessage msgId senderId kind e fileName))
              else
                ({ sessions := setAssoc st.sessions sessionId
                     { session with messages := session.messages ++
                         [mkMessage msgId senderId kind e fileName] },
                   devices := (getOrCreateDevice st.devices
                     (jsOrDefault senderId "unknown") now).2 },
                 .ok (mkMessage msgId senderId kind e fileName))
            else
              ({ st with
                  sessions :=
                    setAssoc st.sessions sessionId
                      { session with
                          messages := session.messages ++
                            [mkMessage msgId senderId kind e fileName] } },
               .ok (mkMessage msgId senderId kind e fileName))

/-- C2: a session created by a free-tier device at time `T` is stored with
`expiresAt = T + 10min`; any join that resolves to it, and any post to it,
attempted strictly after that deadline burns the session in place
(inactive, participants and messages cleared) and fails with `NotFound`,
even if the session was never explicitly ended. -/
theorem c2_free_session_expiry :
    (∀ (st : StoreState) (sessionId code deviceId : String) (T : Nat),
      code ≠ "" → isSixDigitCode code = true → deviceId ≠ "" →
      (getOrCreateDevice st.devices deviceId T).1.tier = .free →
      getAssoc (createSessionT st sessionId code deviceId T).1.sessions
          sessionId =
        some { code := code, active := true, messages := [],
               participants := [deviceId], lastSeen := [(deviceId, T)],
               expiresAt := some (T + FREE_SESSION_LIFETIME_MS) }) ∧
    (∀ (st : StoreState) (code deviceId sid : String) (s : SessionT)
        (E now : Nat),
      code ≠ "" → deviceId ≠ "" →
      findByCodeT st.sessions code = some (sid, s) →
      s.expiresAt = some E → E < now →
      joinSessionT st code deviceId now =
        ({ st with sessions := setAssoc st.sessions sid (burnSessionT s) },
         .error .notFound)) ∧
    (∀ (st : StoreState) (sid : String) (sender : Option String)
        (enc : Option Encrypted) (k f : Option String) (mid : String)
        (s : SessionT) (E now : Nat),
      getAssoc st.sessions sid = some s → s.active = true →
      s.expiresAt = some E → E < now →
      postMessageT st sid sender enc k f mid now =
        ({ st with sessions := setAssoc st.sessions sid (burnSessionT s) },
         .error .notFound)) := by
  refine ⟨?_, ?_, ?_⟩
  · intro st sessionId code deviceId T hcode hsix hdev htier
    simp [createSessionT, hcode, hsix, hdev, htier, getAssoc_setAssoc_self]
  · intro st code deviceId sid s E now hcode hdev hfind hexp hlt
    have hExp : isExpired s now = true := by simp [isExpired, hexp, hlt]
    simp [joinSessionT, hcode, hdev, hfind, hExp]
  · intro st sid sender enc k f mid s E now hget hact hexp hlt
    have hExp : isExpired s now = true := by simp [isExpired, hexp, hlt]
    simp [postMessageT, hget, hact, hExp]

/-- Witness for `c2_free_session_expiry`: a fresh (hence free-tier) device
creates a session at `T = 0`; at `now = 600001 > 600000` both a join
resolving to it and a post to it burn it and fail with `NotFound`. -/
theorem c2_free_session_expiry_witness :
    getAssoc (createSessionT ⟨[], []⟩ "S" "123456" "dev" 0).1.sessions "S" =
      some { code := "123456", active := true, messages := [],
             participants := ["dev"], lastSeen := [("dev", 0)],
             expiresAt := some (0 + FREE_SESSION_LIFETIME_MS) } ∧
    joinSessionT
        ⟨[("S", ⟨"123456", true, [], ["dev"], [("dev", 0)], some 600000⟩)],
         []⟩ "123456" "d2" 600001 =
      (⟨setAssoc
          [("S", ⟨"123456", true, [], ["dev"], [("dev", 0)], some 600000⟩)]
          "S"
          (burnSessionT
            ⟨"123456", true, [], ["dev"], [("dev", 0)], some 600000⟩), []⟩,
       .error .notFound) ∧
    postMessageT
        ⟨[("S", ⟨"123456", true, [], ["dev"], [("dev", 0)], some 600000⟩)],
         []⟩ "S" (some "dev") (some ⟨"c", "n"⟩) none none "m" 600001 =
      (⟨setAssoc
          [("S", ⟨"123456", true, [], ["dev"], [("dev", 0)], some 600000⟩)]
          "S"
          (burnSessionT
            ⟨"123456", true, [], ["dev"], [("dev", 0)], some 600000⟩), []⟩,
       .error .notFound) :=
  ⟨c2_free_session_expiry.1 ⟨[], []⟩ "S" "123456" "dev" 0 (by decide)
     (by decide) (by decide) rfl,
   c2_free_session_expiry.2.1 _ "123456" "d2" "S"
     ⟨"123456", true, [], ["dev"], [("dev", 0)], some 600000⟩ 600000 600001
     (by decide) (by decide) (by decide) rfl (by decide),
   c2_free_session_expiry.2.2 _ "S" (some "dev") (some ⟨"c", "n"⟩) none none
     "m" ⟨"123456", true, [], ["dev"], [("dev", 0)], some 600000⟩ 600000
     600001 rfl rfl rfl (by decide)⟩

/-- C3: the free-tier image quota on `postMessage`.  On an active,
unexpired session with a valid payload, an image from a free-tier sender:
(1) succeeds while the sender's `dailyImageCount` is below the quota of 5,
incrementing the counter — so the first five images in a window succeed;
(2) fails with `QuotaExceeded` once the counter has reached 5, with no
message appended; (3) succeeds again once more than 24 hours have passed
since `lastResetAt`: the lazy reset clears the counter and the send stores
it as 1. -/
theorem c3_image_quota :
    (∀ (st : StoreState) (sid name : String) (e : Encrypted)
        (f : Option String) (mid : String) (s : SessionT) (now : Nat),
      getAssoc st.sessions sid = some s → s.active = true →
      isExpired s now = false → e.ciphertext ≠ "" → e.nonce ≠ "" →
      name ≠ "" →
      (getOrCreateDevice st.devices name now).1.tier = .free →
      (getOrCreateDevice st.devices name now).1.dailyImageCount <
        FREE_DAILY_IMAGE_QUOTA →
      postMessageT st sid (some name) (some e) (some "image") f mid now =
        ({ sessions :=
             setAssoc st.sessions sid
               { s with messages := s.messages ++
                   [mkMessage mid (some name) (some "image") e f] },
           devices :=
             setAssoc (getOrCreateDevice st.devices name now).2 name
               { (getOrCreateDevice st.devices name now).1 with
                   dailyImageCount :=
                     (getOrCreateDevice st.devices name
                       now).1.dailyImageCount + 1 } },
         .ok (mkMessage mid (some name) (some "image") e f))) ∧
    (∀ (st : StoreState) (sid name : String) (e : Encrypted)
        (f : Option String) (mid : String) (s : SessionT) (now : Nat),
      getAssoc st.sessions sid = some s → s.active = true →
      isExpired s now = false → e.ciphertext ≠ "" → e.nonce ≠ "" →
      name ≠ "" →
      (getOrCreateDevice st.devices name now).1.tier = .free →
      FREE_DAILY_IMAGE_QUOTA ≤
        (getOrCreateDevice st.devices name now).1.dailyImageCount →
      postMessageT st sid (some name) (some e) (some "image") f mid now =
        ({ st with devices := (getOrCreateDevice st.devices name now).2 },
         .error .quotaExceeded)) ∧
    (∀ (st : StoreState) (sid name : String) (e : Encrypted)
        (f : Option String) (mid : String) (s : SessionT)
        (r : DeviceRecord) (now : Nat),
      getAssoc st.sessions sid = some s → s.active = true →
      isExpired s now = false → e.ciphertext ≠ "" → e.nonce ≠ "" →
      name ≠ "" →
      getAssoc st.devices name = some r → r.tier = .free →
      DAY_MS < now - r.lastResetAt →
      postMessageT st sid (some name) (some e) (some "image") f mid now =
        ({ sessions :=
             setAssoc st.sessions sid
               { s with messages := s.messages ++
                   [mkMessage mid (some name) (some "image") e f] },
           devices :=
             setAssoc (setAssoc st.devices name ⟨r.tier, 0, now⟩) name
               ⟨r.tier, 1, now⟩ },
         .ok (mkMessage mid (some name) (some "image") e f))) := by
  refine ⟨?_, ?_, ?_⟩
  · intro st sid name e f mid s now hget hact hnotexp hc hn hname htier
      hcount
    have hnotle : ¬ (FREE_DAILY_IMAGE_QUOTA ≤
        (getOrCreateDevice st.devices name now).1.dailyImageCount) :=
      Nat.not_le.mpr hcount
    simp [postMessageT, hget, hact, hnotexp, hc, hn, jsOrDefault, hname,
      htier, hnotle]
  · intro st sid name e f mid s now hget hact hnotexp hc hn hname htier hge
    simp [postMessageT, hget, hact, hnotexp, hc, hn, jsOrDefault, hname,
      htier, hge]
  · intro st sid name e f mid s r now hget hact hnotexp hc hn hname hr
      hrtier htime
    have hdev : getOrCreateDevice st.devices name now =
        (⟨r.tier, 0, now⟩, setAssoc st.devices name ⟨r.tier, 0, now⟩) := by
      simp [getOrCreateDevice, hr, htime]
    simp [postMessageT, hget, hact, hnotexp, hc, hn, jsOrDefault, hname,
      hdev, hrtier, FREE_DAILY_IMAGE_QUOTA]

/-- Witness for `c3_image_quota`: device `a` on a non-expiring session —
at count 4 an image succeeds and stores count 5; at count 5 it fails with
`QuotaExceeded` and the store is unchanged; at count 5 but 24h+1ms after
the last reset, the counter lazily resets and the image succeeds with the
stored count 1. -/
theorem c3_image_quota_witness :
    postMessageT
        ⟨[("S", ⟨"123456", true, [], ["a", "b"], [("a", 0)], none⟩)],
         [("a", ⟨.free, 4, 0⟩)]⟩ "S" (some "a") (some ⟨"c", "n"⟩)
        (some "image") none "m1" 1000 =
      (⟨setAssoc [("S", ⟨"123456", true, [], ["a", "b"], [("a", 0)], none⟩)]
          "S"
          { code := "123456", active := true,
            messages :=
              [mkMessage "m1" (some "a") (some "image") ⟨"c", "n"⟩ none],
            participants := ["a", "b"], lastSeen := [("a", 0)],
            expiresAt := none },
        setAssoc [("a", ⟨.free, 4, 0⟩)] "a" ⟨.free, 5, 0⟩⟩,
       .ok (mkMessage "m1" (some "a") (some "image") ⟨"c", "n"⟩ none)) ∧
    postMessageT
        ⟨[("S", ⟨"123456", true, [], ["a", "b"], [("a", 0)], none⟩)],
         [("a", ⟨.free, 5, 0⟩)]⟩ "S" (some "a") (some ⟨"c", "n"⟩)
        (some "image") none "m2" 1000 =
      (⟨[("S", ⟨"123456", true, [], ["a", "b"], [("a", 0)], none⟩)],
        [("a", ⟨.free, 5, 0⟩)]⟩,
       .error .quotaExceeded) ∧
    postMessageT
        ⟨[("S", ⟨"123456", true, [], ["a", "b"], [("a", 0)], none⟩)],
         [("a", ⟨.free, 5, 0⟩)]⟩ "S" (some "a") (some ⟨"c", "n"⟩)
        (some "image") none "m3" 86400001 =
      (⟨setAssoc [("S", ⟨"123456", true, [], ["a", "b"], [("a", 0)], none⟩)]
          "S"
          { code := "123456", active := true,
            messages :=
              [mkMessage "m3" (some "a") (some "image") ⟨"c", "n"⟩ none],
            participants := ["a", "b"], lastSeen := [("a", 0)],
            expiresAt := none },
        setAssoc (setAssoc [("a", ⟨.free, 5, 0⟩)] "a" ⟨.free, 0, 86400001⟩)
          "a" ⟨.free, 1, 86400001⟩⟩,
       .ok (mkMessage "m3" (some "a") (some "image") ⟨"c", "n"⟩ none)) :=
  ⟨c3_image_quota.1 _ "S" "a" ⟨"c", "n"⟩ none "m1"
     ⟨"123456", true, [], ["a", "b"], [("a", 0)], none⟩ 1000 rfl rfl rfl
     (by decide) (by decide) (by decide) rfl (by decide),
   c3_image_quota.2.1 _ "S" "a" ⟨"c", "n"⟩ none "m2"
     ⟨"123456", true, [], ["a", "b"], [("a", 0)], none⟩ 1000 rfl rfl rfl
     (by decide) (by decide) (by decide) rfl (by decide),
   c3_image_quota.2.2 _ "S" "a" ⟨"c", "n"⟩ none "m3"
     ⟨"123456", true, [], ["a", "b"], [("a", 0)], none⟩ ⟨.free, 5, 0⟩
     86400001 rfl rfl rfl (by decide) (by decide) (by decide) rfl rfl
     (by decide)⟩

end Tiered
